import Mathlib

/-!
Verification of the RealEstate_app reconciliation / duplicate-detection core.

The Python core operates on pandas DataFrames.  The embedding models a cell
as a `Value` (string, integer, date or NaN; pandas merge and groupby treat
NaN keys as equal to each other, so structural equality on `Value` matches
the join semantics), a row as an association list from column names to
values, and a DataFrame as a column list plus a row list.  Dates are encoded
as `y * 10000 + m * 100 + d`, which orders chronologically; numerics are
`Int` (no claim here depends on float arithmetic).
-/

/-- One cell of a table: pandas object/number/datetime values, with `nan`
standing for NaN/NaT.  `bool` appears only in derived flag columns. -/
inductive Value where
  | str (s : String)
  | num (n : Int)
  | date (d : Nat)
  | bool (b : Bool)
  | nan
deriving DecidableEq, Repr

/-- One row: column name to cell value. -/
abbrev Row := List (String × Value)

/-- A table: ordered column names and ordered rows. -/
structure DataFrame where
  cols : List String
  rows : List Row
deriving DecidableEq, Repr

/-- Cell of row `r` in column `c`; a column absent from the row reads as NaN
(pandas never hits this case on a well-formed frame). -/
def getCell (r : Row) (c : String) : Value := (List.lookup c r).getD Value.nan

/-- Python str() of a cell, as used by `.astype(str)` and f-string style
conversions in the core. -/
def valueToStr : Value → String
  | .str s => s
  | .num n => toString n
  | .date d => toString d
  | .bool b => toString b
  | .nan => "nan"

/-- Digits of `cs` as a number, `none` when `cs` is empty or has a non-digit. -/
def charsToNat (cs : List Char) : Option Nat :=
  if cs ≠ [] ∧ (∀ c ∈ cs, c.isDigit) then
    some (cs.foldl (fun n c => n * 10 + (c.toNat - 48)) 0)
  else none

/-- Two-digit years as pandas/strptime reads them: 00–68 is 2000s, 69–99 is
1900s. -/
def year2 (yy : Nat) : Nat := if yy < 69 then 2000 + yy else 1900 + yy

/-- Date encoding `y * 10000 + m * 100 + d`: lexicographic on (y, m, d). -/
def mkDate (y m d : Nat) : Nat := y * 10000 + m * 100 + d

/-- Day-first parse of `dd.mm.yy`, `dd.mm.yyyy`, `dd/mm/yy`, `dd/mm/yyyy`
(pd.to_datetime with dayfirst=True on the formats the core's regexes emit);
`none` models NaT from errors="coerce". -/
def parseDateDMY (s : String) : Option Nat :=
  match (s.toList.splitOnP (fun c => decide (c = '.' ∨ c = '/'))) with
  | [ds, ms, ys] =>
    match charsToNat ds, charsToNat ms, charsToNat ys with
    | some d, some m, some y =>
      if 1 ≤ d ∧ d ≤ 31 ∧ 1 ≤ m ∧ m ≤ 12 then
        some (mkDate (if y < 100 then year2 y else y) m d)
      else none
    | _, _, _ => none
  | _ => none

/-- Datetime view of a cell: already-parsed dates pass through, strings go
through the day-first parser, everything else is NaT. -/
def cellToDate : Value → Option Nat
  | .date d => some d
  | .str s => parseDateDMY s
  | _ => none

/-- Numeric view of a cell (pd.to_numeric with errors="coerce"). -/
def cellToNum : Value → Option Int
  | .num n => some n
  | .str s => s.toInt?
  | _ => none

/-- Worker of `dedupFirst`: drop elements already seen, keep the first
occurrence of each new one. -/
def dedupFirstAux {α : Type} [DecidableEq α] (seen : List α) : List α → List α
  | [] => []
  | a :: as =>
    if a ∈ seen then dedupFirstAux seen as
    else a :: dedupFirstAux (a :: seen) as

/-- drop_duplicates keeping the first occurrence, as pandas does. -/
def dedupFirst {α : Type} [DecidableEq α] (l : List α) : List α :=
  dedupFirstAux [] l

/-- One step of insertion sort under a boolean `le`. -/
def insertLe {α : Type} (le : α → α → Bool) (a : α) : List α → List α
  | [] => [a]
  | b :: bs => if le a b then a :: b :: bs else b :: insertLe le a bs

/-- Insertion sort: the ascending ordering pandas groupby/sort_values apply;
the keys sorted here are distinct, so any correct sort agrees. -/
def sortLe {α : Type} (le : α → α → Bool) : List α → List α
  | [] => []
  | a :: as => insertLe le a (sortLe le as)

/-- Python str.strip(): whitespace removed from both ends. -/
def pyStrip (s : String) : String :=
  String.mk (((s.toList.dropWhile Char.isWhitespace).reverse.dropWhile
    Char.isWhitespace).reverse)

namespace DuplicatesChecker

/-- core/duplicates_checker.py DUP_KEY_COLUMNS: the composite key for the
within-table duplicate check (snapshot column `scan_date` included). -/
def DUP_KEY_COLUMNS : List String :=
  ["block_lot", "sale_day", "declared_profit", "sold_part", "city",
   "build_year", "building_mr", "rooms_number", "scan_date"]

end DuplicatesChecker

namespace GapChecker

/-- core/gap_checker.py DEFAULT_JOIN_KEYS: the cross-table matching key.
property_type is intentionally not included (comment in the source). -/
def DEFAULT_JOIN_KEYS : List String :=
  ["block_lot", "sale_day", "declared_profit", "sold_part", "city",
   "build_year", "building_mr", "rooms_number"]

/-- core/gap_checker.py extract_goch_from_block_lot: substring before the
first '-', keep only digits, strip leading zeros, with "0" when stripping
eats everything (`stripped or "0"`) and "" when there is no digit at all.
The Python None guard is outside the string domain modelled here. -/
def extract_goch_from_block_lot (value : String) : String :=
  let firstPart := value.toList.takeWhile (fun c => decide (c ≠ '-'))
  let digitsOnly := firstPart.filter Char.isDigit
  if digitsOnly = [] then ""
  else
    let stripped := digitsOnly.dropWhile (fun c => decide (c = '0'))
    if stripped = [] then "0" else String.mk stripped

end GapChecker

namespace TaxGapChecker

/-- core/tax_gap_checker.py KEY_COLUMNS: the merge key of _gap_for_one_rami. -/
def KEY_COLUMNS : List String :=
  ["block_lot", "sale_day", "declared_profit", "sale_profit", "sold_part",
   "build_year", "building_mr", "rooms_number"]

/-- core/tax_gap_checker.py _extract_block_ids_from_series, applied to one
value: split('-', 1)[0], extract the first digit run (regex `(\d+)`,
NaN → "" via fillna) and lstrip zeros. -/
def firstDigitRun : List Char → List Char
  | [] => []
  | c :: cs => if c.isDigit then c :: cs.takeWhile Char.isDigit else firstDigitRun cs

/-- One-value form of _extract_block_ids_from_series (the series map applies
this to str(value) element-wise). -/
def extractBlockId (value : String) : String :=
  let firstPart := value.toList.takeWhile (fun c => decide (c ≠ '-'))
  String.mk ((firstDigitRun firstPart).dropWhile (fun c => decide (c = '0')))

/-- Date part of core/tax_gap_checker.py _parse_rami_from_cells: the first
regex match becomes date_from, the second date_to, in order of appearance
(no swap in the source). The argument is the list the date regex found in
the A2–A4 text. -/
def parseDatesFromCells (dateStrings : List String) : Option Nat × Option Nat :=
  ((dateStrings.get? 0).bind parseDateDMY, (dateStrings.get? 1).bind parseDateDMY)

end TaxGapChecker

/-- Rank used to order cells of different kinds against each other; NaN
sorts last, as pandas groupby(dropna=False) places NaN groups last. -/
def valueRank : Value → Nat
  | .num _ => 0
  | .date _ => 1
  | .str _ => 2
  | .bool _ => 3
  | .nan => 4

/-- Total order on cells: within a kind the kind's own order, across kinds
by rank (pandas sorts each column by its dtype's order). -/
def compareValue : Value → Value → Ordering
  | .num a, .num b => compare a b
  | .date a, .date b => compare a b
  | .str a, .str b => compare a b
  | .bool a, .bool b => compare a b
  | a, b => compare (valueRank a) (valueRank b)

namespace RamiParser

/-- core/rami_parser.py _parse_dates_from_filename: with at least two
`dd.mm.yy` matches, parse both strictly and return (min, max); any parse
failure or fewer matches yields (None, None), modelled as `none`. -/
def parseDatesFromFilename (ms : List String) : Option (Nat × Nat) :=
  match ms with
  | a :: b :: _ =>
    match parseDateDMY a, parseDateDMY b with
    | some d1, some d2 => some (min d1 d2, max d1 d2)
    | _, _ => none
  | _ => none

end RamiParser

namespace FileLoader

/-- core/file_loader.py RAMI_COLUMN_MAP (Hebrew → canonical English). -/
def RAMI_COLUMN_MAP : List (String × String) :=
  [("גוש חלקה", "block_lot"),
   ("יום מכירה", "sale_day"),
   ("תמורה מוצהרת בש\"ח", "declared_profit"),
   ("שווי מכירה בש\"ח", "sale_profit"),
   ("מהות", "property_type"),
   ("חלק נמכר", "sold_part"),
   ("ישוב", "city"),
   ("שנת בניה", "build_year"),
   ("שטח", "building_mr"),
   ("חדרים", "rooms_number")]

/-- Rename map of core/file_loader.py _normalize_rami_columns: a Hebrew
column is renamed only when it is present and its English target is not
(the guard against overwriting an already-English file). -/
def renameMapRami (cols : List String) : List (String × String) :=
  RAMI_COLUMN_MAP.filter (fun p => decide (p.1 ∈ cols) && !decide (p.2 ∈ cols))

/-- df.rename(columns=rm) applied to one column label. -/
def applyRename (rm : List (String × String)) (c : String) : String :=
  (List.lookup c rm).getD c

/-- Column labels after core/file_loader.py _normalize_rami_columns.  pandas
rename only relabels columns in place, so the column's cell values travel
with the label unchanged. -/
def normalize_rami_columns (cols : List String) : List String :=
  cols.map (applyRename (renameMapRami cols))

end FileLoader

namespace TaxGapChecker

/-- core/tax_gap_checker.py HEBREW_TO_CANONICAL. -/
def HEBREW_TO_CANONICAL : List (String × String) :=
  [("גוש חלקה", "block_lot"),
   ("יום מכירה", "sale_day"),
   ("תמורה מוצהרת בש\"ח", "declared_profit"),
   ("שווי מכירה בש\"ח", "sale_profit"),
   ("מהות", "property_type"),
   ("חלק נמכר", "sold_part"),
   ("ישוב", "city"),
   ("שנת בניה", "build_year"),
   ("שטח", "building_mr"),
   ("חדרים", "rooms_number")]

/-- core/tax_gap_checker.py ENGLISH_ALIASES (keys already lower-case). -/
def ENGLISH_ALIASES : List (String × String) :=
  [("block lot", "block_lot"), ("block_lot", "block_lot"), ("blocklot", "block_lot"),
   ("sale day", "sale_day"), ("sale_day", "sale_day"),
   ("declared profit", "declared_profit"), ("declared_profit", "declared_profit"),
   ("sale profit", "sale_profit"), ("sale_profit", "sale_profit"),
   ("sold part", "sold_part"), ("sold_part", "sold_part"),
   ("city", "city"),
   ("build year", "build_year"), ("build_year", "build_year"),
   ("building mr", "building_mr"), ("building_mr", "building_mr"),
   ("rooms number", "rooms_number"), ("rooms_number", "rooms_number")]

/-- Python str.lower on the column label. -/
def toLowerStr (s : String) : String := String.mk (s.toList.map Char.toLower)

/-- Target of one column label under core/tax_gap_checker.py
_normalize_columns: Hebrew exact match first, then the case-insensitive
English alias table; no guard against an already-canonical sibling. -/
def canonicalTarget (c : String) : Option String :=
  let cs := pyStrip c
  match List.lookup cs HEBREW_TO_CANONICAL with
  | some t => some t
  | none => List.lookup (toLowerStr cs) ENGLISH_ALIASES

/-- Column labels after core/tax_gap_checker.py _normalize_columns. -/
def normalize_columns (cols : List String) : List String :=
  cols.map (fun c => (canonicalTarget c).getD c)

/-- core/tax_gap_checker.py _filter_rami_by_dates: date filter on sale_day,
skipped entirely when the column or either bound is absent.  The scan-side
date filter in _filter_scan_by_context is these same two lines. -/
def filter_rami_by_dates (df : DataFrame) (dfrom dto : Option Nat) : DataFrame :=
  match dfrom, dto with
  | some a, some b =>
    if "sale_day" ∈ df.cols then
      ⟨df.cols, df.rows.filter (fun r =>
        match cellToDate (getCell r "sale_day") with
        | some d => decide (a ≤ d ∧ d ≤ b)
        | none => false)⟩
    else df
  | _, _ => df

/-- Case-insensitive substring test (needle, haystack), the semantics of
str.contains(re.escape(fv), case=False, na=False). -/
def infixOfB (needle : List Char) : List Char → Bool
  | [] => needle.isEmpty
  | c :: cs => needle.isPrefixOf (c :: cs) || infixOfB needle cs

/-- Case-insensitive containment of `needle` in `hay`. -/
def containsCI (hay needle : String) : Bool :=
  infixOfB (needle.toList.map Char.toLower) (hay.toList.map Char.toLower)

/-- Distinct non-empty city strings of the RAMI context frame:
rami_context_df["city"].dropna().astype(str).unique(), then the
set comprehension keeping truthy strings. -/
def ramiCityVals (rctx : DataFrame) : List String :=
  (dedupFirst (((rctx.rows.map (fun r => getCell r "city")).filter
      (fun v => decide (v ≠ Value.nan))).map valueToStr)).filter
    (fun s => decide (s ≠ ""))

/-- Distinct non-empty normalized block ids of the RAMI context frame
(_extract_block_ids_from_series over block_lot, then the truthy set). -/
def ramiBlockVals (rctx : DataFrame) : List String :=
  (dedupFirst (rctx.rows.map
      (fun r => extractBlockId (valueToStr (getCell r "block_lot"))))).filter
    (fun s => decide (s ≠ ""))

/-- core/tax_gap_checker.py _filter_scan_by_context: date range first, then
the city or block dimension, each skipped when its column is missing from
the scan; the RAMI context frame's own values are preferred over the raw
filter_value fallback. -/
def filter_scan_by_context (dfScan : DataFrame) (filterType filterValue : String)
    (dfrom dto : Option Nat) (ramiCtx : Option DataFrame) : DataFrame :=
  let out := filter_rami_by_dates dfScan dfrom dto
  match ramiCtx with
  | none => out
  | some rctx =>
    if filterType = "city" ∧ "city" ∈ out.cols then
      if "city" ∈ rctx.cols ∧ ramiCityVals rctx ≠ [] then
        ⟨out.cols, out.rows.filter (fun r =>
          decide (valueToStr (getCell r "city") ∈ ramiCityVals rctx))⟩
      else
        let fv := pyStrip filterValue
        if fv ≠ "" then
          ⟨out.cols, out.rows.filter (fun r =>
            containsCI (valueToStr (getCell r "city")) fv)⟩
        else out
    else if filterType = "block" ∧ "block_lot" ∈ out.cols then
      if "block_lot" ∈ rctx.cols ∧ ramiBlockVals rctx ≠ [] then
        ⟨out.cols, out.rows.filter (fun r =>
          decide (extractBlockId (valueToStr (getCell r "block_lot")) ∈ ramiBlockVals rctx))⟩
      else
        let fvDigits := filterValue.toList.filter Char.isDigit
        let stripped := fvDigits.dropWhile (fun c => decide (c = '0'))
        let fvBlock := if stripped = [] then String.mk fvDigits else String.mk stripped
        ⟨out.cols, out.rows.filter (fun r =>
          decide (extractBlockId (valueToStr (getCell r "block_lot")) = fvBlock))⟩
    else out

/-- core/tax_gap_checker.py _ensure_required_columns: error listing the
missing KEY_COLUMNS, success when all are present. -/
def ensure_required_columns (df : DataFrame) (label : String) : Except String Unit :=
  let missing := KEY_COLUMNS.filter (fun c => !decide (c ∈ df.cols))
  if missing = [] then Except.ok ()
  else Except.error (label ++ " is missing required columns: "
    ++ String.intercalate ", " missing
    ++ ". Make sure the file headers match the expected schema.")

/-- Key tuple of one row over KEY_COLUMNS. -/
def keyOf (r : Row) : List Value := KEY_COLUMNS.map (getCell r)

/-- scan_keys = scan_filtered[merge_cols].drop_duplicates(). -/
def scanKeys (scanF : DataFrame) : List (List Value) :=
  dedupFirst (scanF.rows.map keyOf)

/-- The indicator merge and left_only restriction of _gap_for_one_rami: the
right side is key-unique after drop_duplicates and brings no new columns,
so the left merge keeps each RAMI row exactly once and marks it left_only
exactly when its key tuple is absent from the scan keys. -/
def missingDf (ramiF scanF : DataFrame) : DataFrame :=
  ⟨ramiF.cols, ramiF.rows.filter (fun r => !decide (keyOf r ∈ scanKeys scanF))⟩

/-- Implicit query of a RAMI source, as _parse_rami_context returns it
(that function catches all its own exceptions and falls back to the
filename, so it never raises). -/
structure RamiContext where
  filterType : String
  filterValue : String
  dateFrom : Option Nat
  dateTo : Option Nat

/-- One RAMI source of a batch: its base name, the result of reading and
normalizing its bytes (_read_rami_file, which may raise), and its parsed
context. -/
structure RamiSource where
  name : String
  read : Except String DataFrame
  ctx : RamiContext

/-- Per-file entry of core/tax_gap_checker.py (the file_stats dict). -/
structure FileStats where
  rami_filename : String
  status : String
  filter_type : Option String
  filter_value : Option String
  date_from : Option Nat
  date_to : Option Nat
  rami_rows_total : Nat
  rami_rows_filtered : Nat
  scan_rows_filtered : Nat
  missing_count : Nat
  error_message : String
deriving DecidableEq, Repr

/-- Body of the try-block of _gap_for_one_rami: read, filter both sides,
check required columns, compute the missing rows and the ok stats.  Any
step's exception propagates as `Except.error`. -/
def gapPipeline (scanDfAll : DataFrame) (src : RamiSource) :
    Except String (FileStats × DataFrame) :=
  match src.read with
  | .error e => .error e
  | .ok ramiDfAll =>
    let c := src.ctx
    let ramiFiltered := filter_rami_by_dates ramiDfAll c.dateFrom c.dateTo
    let scanFiltered := filter_scan_by_context scanDfAll c.filterType c.filterValue
      c.dateFrom c.dateTo (some ramiFiltered)
    match ensure_required_columns
        (if 0 < scanFiltered.rows.length then scanFiltered else scanDfAll)
        "Scan file (after filtering)" with
    | .error e => .error e
    | .ok _ =>
      match ensure_required_columns
          (if 0 < ramiFiltered.rows.length then ramiFiltered else ramiDfAll)
          "RAMI file (after filtering)" with
      | .error e => .error e
      | .ok _ =>
        let missing := missingDf ramiFiltered scanFiltered
        .ok ({ rami_filename := src.name, status := "ok",
               filter_type := some c.filterType, filter_value := some c.filterValue,
               date_from := c.dateFrom, date_to := c.dateTo,
               rami_rows_total := ramiDfAll.rows.length,
               rami_rows_filtered := ramiFiltered.rows.length,
               scan_rows_filtered := scanFiltered.rows.length,
               missing_count := missing.rows.length,
               error_message := "" }, missing)

/-- The except-branch of _gap_for_one_rami: an error entry with the message
and zero in every count. -/
def errorStats (name msg : String) : FileStats :=
  { rami_filename := name, status := "error",
    filter_type := none, filter_value := none,
    date_from := none, date_to := none,
    rami_rows_total := 0, rami_rows_filtered := 0,
    scan_rows_filtered := 0, missing_count := 0,
    error_message := msg }

/-- core/tax_gap_checker.py _gap_for_one_rami: the pipeline with its
catch-all except turning any exception into an error entry plus an empty
missing frame, so one bad source never raises to the caller. -/
def gapForOneRami (scanDfAll : DataFrame) (src : RamiSource) : FileStats × DataFrame :=
  match gapPipeline scanDfAll src with
  | .ok r => r
  | .error e => (errorStats src.name e, ⟨[], []⟩)

/-- Tag missing rows with their source file (`df_copy["rami_source"] = ...`). -/
def tagSource (name : String) (df : DataFrame) : List Row :=
  df.rows.map (fun r => r ++ [("rami_source", Value.str name)])

/-- Aggregate of core/tax_gap_checker.py run_tax_gap_check over a batch
(the ZIP case iterates members through _gap_for_one_rami exactly so). -/
structure GlobalStats where
  allFilesStats : List FileStats
  missingAll : List Row
  ramiRowsTotalAll : Nat
  missingTotal : Nat
  fileCountTotal : Nat
  fileCountSuccess : Nat
  fileCountError : Nat

/-- core/tax_gap_checker.py run_tax_gap_check, batch part: every source goes
through _gap_for_one_rami, its stats entry is always appended, and its
missing rows enter the aggregate only when its status is ok and the frame
is non-empty. -/
def run_tax_gap_check (scanDfAll : DataFrame) (sources : List RamiSource) : GlobalStats :=
  let results := sources.map (fun s => gapForOneRami scanDfAll s)
  let allStats := results.map (fun p => p.1)
  let missingAll := (results.filterMap (fun p =>
    if p.1.status = "ok" ∧ p.2.rows ≠ [] then
      some (tagSource p.1.rami_filename p.2)
    else none)).flatten
  { allFilesStats := allStats,
    missingAll := missingAll,
    ramiRowsTotalAll := (allStats.map (fun f => f.rami_rows_total)).sum,
    missingTotal := missingAll.length,
    fileCountTotal := allStats.length,
    fileCountSuccess := (allStats.filter (fun f => decide (f.status = "ok"))).length,
    fileCountError := (allStats.filter (fun f => decide (f.status = "error"))).length }

end TaxGapChecker

namespace GapChecker

/-- Inferred query of core/gap_checker.py infer_query_from_tax_file: the
bounds are min/max of the tax file's sale_day column (so never None here),
the location a city list or a goch list. -/
structure TaxQuery where
  date_from : Nat
  date_to : Nat
  location_type : String
  location_values : List Value

/-- core/gap_checker.py filter_scan_by_tax_query: raises when the scan lacks
the date column or the column the location dimension needs; otherwise keeps
rows inside the date range whose location matches. -/
def filter_scan_by_tax_query (dfScan : DataFrame) (q : TaxQuery) :
    Except String DataFrame :=
  if "sale_day" ∈ dfScan.cols then
    let dateMask : Row → Bool := fun r =>
      match cellToDate (getCell r "sale_day") with
      | some d => decide (q.date_from ≤ d ∧ d ≤ q.date_to)
      | none => false
    if q.location_type = "city" then
      if "city" ∈ dfScan.cols then
        .ok ⟨dfScan.cols, dfScan.rows.filter (fun r =>
          dateMask r && decide (getCell r "city" ∈ q.location_values))⟩
      else .error "Scan file has no 'city' column but tax query is by city."
    else if q.location_type = "goch" then
      if "block_lot" ∈ dfScan.cols then
        .ok ⟨dfScan.cols, dfScan.rows.filter (fun r =>
          dateMask r && decide (Value.str
            (extract_goch_from_block_lot (valueToStr (getCell r "block_lot")))
            ∈ q.location_values))⟩
      else .error "Scan file has no 'block_lot' column but tax query is by goch."
    else .error ("Unsupported location_type: " ++ q.location_type)
  else .error "Scan file is missing date column 'sale_day'"

/-- Key tuple of a row over the given join keys (steps 5-6 of
core/gap_checker.py find_missing_transactions). -/
def keyOfJoin (joinKeys : List String) (r : Row) : List Value :=
  joinKeys.map (getCell r)

/-- The __in_scan__ column of
`tax_keys.merge(scan_keys_marked, how="left", on=join_keys)` after
`fillna(False)`: the scan keys are NOT deduplicated, so each tax row emits
one merged row per matching scan row (in scan order, True), or a single
False row when it has no match. -/
def mergedFlags (joinKeys : List String) (taxRows scanRows : List Row) :
    List Bool :=
  taxRows.flatMap (fun t =>
    let ms := scanRows.filter (fun s =>
      decide (keyOfJoin joinKeys s = keyOfJoin joinKeys t))
    if ms = [] then [false] else ms.map (fun _ => true))

/-- `tax_with_flag["found_in_scan"] = found_mask` of
find_missing_transactions: the merged frame carries a fresh RangeIndex, so
pandas aligns it with the tax frame's RangeIndex positionally — tax row i
receives merged flag i, and the flags past the tax frame's length are
dropped.  Duplicate scan keys inflate the merged frame, shifting the flags
of every later tax row. -/
def found_mask (joinKeys : List String) (taxRows scanRows : List Row) :
    List Bool :=
  (mergedFlags joinKeys taxRows scanRows).take taxRows.length

/-- Steps 5-8 of core/gap_checker.py find_missing_transactions: the tax
rows whose (index-aligned) found_in_scan flag is False. -/
def missing_transactions (joinKeys : List String) (taxRows scanRows : List Row) :
    List Row :=
  ((taxRows.zip (found_mask joinKeys taxRows scanRows)).filter
    (fun p => !p.2)).map Prod.fst

end GapChecker

namespace DuplicatesChecker

/-- Lexicographic order on key tuples, column by column. -/
def compareKey : List Value → List Value → Ordering
  | [], [] => .eq
  | [], _ :: _ => .lt
  | _ :: _, [] => .gt
  | a :: as, b :: bs =>
    match compareValue a b with
    | .eq => compareKey as bs
    | o => o

/-- Boolean "not greater" used to sort group keys ascending. -/
def keyLe (a b : List Value) : Bool := decide (compareKey a b ≠ Ordering.gt)

/-- Key tuple of a row over DUP_KEY_COLUMNS. -/
def keyOfDup (r : Row) : List Value := DUP_KEY_COLUMNS.map (getCell r)

/-- Number of rows sharing key `k`. -/
def countKey (rows : List Row) (k : List Value) : Nat :=
  (rows.filter (fun r => decide (keyOfDup r = k))).length

/-- groupby(group_cols, dropna=False).size() restricted to dup_count > 1:
one entry per distinct key tuple, in pandas' sorted group-key order
(groupby sorts its keys ascending). -/
def dupGroups (rows : List Row) : List (List Value × Nat) :=
  ((sortLe keyLe (dedupFirst (rows.map keyOfDup))).map
    (fun k => (k, countKey rows k))).filter (fun p => decide (1 < p.2))

/-- reset_index plus `dup_group_id = index + 1`: ids 1..N in group order. -/
def dupGroupsWithId (rows : List Row) : List (List Value × Nat × Nat) :=
  (dupGroups rows).enum.map (fun p => (p.2.1, p.2.2, p.1 + 1))

/-- Inner merge of the filtered rows with the dup groups (left order kept,
dup_count and dup_group_id attached), then the final sort by
[dup_group_id asc, dup_count desc]; dup_count is constant inside a group,
so the secondary key never reorders and quicksort's instability within one
group is unobservable in the counts the properties speak about. -/
def dupRows (rows : List Row) : List (Row × Nat × Nat) :=
  (rows.filterMap (fun r =>
    match (dupGroupsWithId rows).find? (fun g => decide (g.1 = keyOfDup r)) with
    | some g => some (r, g.2)
    | none => none)) |> sortLe (fun a b => decide (a.2.2 ≤ b.2.2))

/-- Summary numbers of core/duplicates_checker.py run_duplicates_check. -/
structure DupResults where
  rows_before : Nat
  rows_after_filter : Nat
  latest_scan_date : Nat
  duplicate_groups : Nat
  duplicate_rows : Nat
deriving DecidableEq, Repr

/-- core/duplicates_checker.py _ensure_required_columns. -/
def ensure_dup_columns (df : DataFrame) : Except String Unit :=
  let missing := DUP_KEY_COLUMNS.filter (fun c => !decide (c ∈ df.cols))
  if missing = [] then Except.ok ()
  else Except.error ("Missing required columns for duplicates check: "
    ++ String.intercalate ", " missing)

/-- core/duplicates_checker.py run_duplicates_check on an already-loaded
frame (reading the file is the external reader capability): column check,
latest-scan-date detection — raising when `scan_parsed.isna().all()`, which
on a zero-row frame is vacuously true — the scan_date/sold_part filter, the
grouping and the merged duplicate rows. -/
def run_duplicates_check (df : DataFrame) :
    Except String (DupResults × List (Row × Nat × Nat)) :=
  let rowsBefore := df.rows.length
  match ensure_dup_columns df with
  | .error e => .error e
  | .ok _ =>
    let scanParsed := df.rows.map (fun r => cellToDate (getCell r "scan_date"))
    if scanParsed.all (fun d => decide (d = none)) then
      .error "Could not parse any valid dates in 'scan_date' column."
    else
      let latest := (scanParsed.filterMap id).foldl max 0
      let dfFiltered := df.rows.filter (fun r =>
        decide (cellToDate (getCell r "scan_date") = some latest)
        && decide (cellToNum (getCell r "sold_part") = some 1))
      if dfFiltered.length = 0 then
        .ok ({ rows_before := rowsBefore, rows_after_filter := 0,
               latest_scan_date := latest, duplicate_groups := 0,
               duplicate_rows := 0 }, [])
      else if dupGroups dfFiltered = [] then
        .ok ({ rows_before := rowsBefore, rows_after_filter := dfFiltered.length,
               latest_scan_date := latest, duplicate_groups := 0,
               duplicate_rows := 0 }, [])
      else
        .ok ({ rows_before := rowsBefore, rows_after_filter := dfFiltered.length,
               latest_scan_date := latest,
               duplicate_groups := (dupGroupsWithId dfFiltered).length,
               duplicate_rows := (dupRows dfFiltered).length }, dupRows dfFiltered)

end DuplicatesChecker

namespace SamplingChecker

/-- core/sampling_checker.py DEFAULT_JOIN_KEYS (no sold_part, no sale_profit). -/
def SAMPLING_JOIN_KEYS : List String :=
  ["block_lot", "sale_day", "declared_profit", "city",
   "build_year", "building_mr", "rooms_number"]

/-- core/sampling_checker.py _ensure_columns_exist. -/
def ensure_columns_exist (df : DataFrame) (columns : List String)
    (context : String) : Except String Unit :=
  let missing := columns.filter (fun c => !decide (c ∈ df.cols))
  if missing = [] then Except.ok ()
  else Except.error ("Missing required columns in " ++ context)

/-- core/sampling_checker.py _filter_latest_scan: no scan_date column means
no filtering; otherwise the maximum parsed date (or, when nothing parses,
the maximum raw value) selects the kept rows. -/
def filter_latest_scan (df : DataFrame) : DataFrame × Option String :=
  if "scan_date" ∈ df.cols then
    let scanDt := df.rows.map (fun r => cellToDate (getCell r "scan_date"))
    if scanDt.any (fun d => decide (d ≠ none)) then
      let latest := (scanDt.filterMap id).foldl max 0
      (⟨df.cols, df.rows.filter (fun r =>
        decide (cellToDate (getCell r "scan_date") = some latest))⟩,
       some (toString latest))
    else
      let latestRaw := (df.rows.map (fun r => getCell r "scan_date")).foldl
        (fun a b => if compareValue a b = Ordering.lt then b else a) Value.nan
      (⟨df.cols, df.rows.filter (fun r =>
        decide (getCell r "scan_date" = latestRaw))⟩,
       some (valueToStr latestRaw))
  else (df, none)

/-- core/sampling_checker.py _filter_sold_part_equals_one. -/
def filter_sold_part_equals_one (df : DataFrame) : DataFrame :=
  if "sold_part" ∈ df.cols then
    ⟨df.cols, df.rows.filter (fun r =>
      decide (cellToNum (getCell r "sold_part") = some 1))⟩
  else df

/-- A linear congruential step: the deterministic pseudo-random stream that
a fixed seed pins down. -/
def lcg (s : Nat) : Nat := (1103515245 * s + 12345) % 4294967296

/-- Deterministic model of DataFrame.sample(n, random_state=seed) without
replacement: numpy's RandomState(seed) is a pure function of the seed, so
the draw is modelled as one concrete such function (successive seeded
index picks from the remaining pool). -/
def sampleGo : Nat → List Row → Nat → List Row
  | _, _, 0 => []
  | s, pool, n + 1 =>
    match pool with
    | [] => []
    | _ :: _ =>
      let i := s % pool.length
      pool.getD i [] :: sampleGo (lcg s) (pool.eraseIdx i) n

/-- core/sampling_checker.py run_sampling_check.  `entropy` is the ambient
OS randomness available to the process; the source passes the constant
random_state=42 to its only random draw, so `entropy` is never consulted.
Returns (sample with found_in_scan flag, missing-only rows, latest scan
value). -/
def run_sampling_check (entropy : Nat) (dfScanRaw dfRamiRaw : DataFrame)
    (sampleSize : Option Nat) (joinKeys : Option (List String)) :
    Except String (DataFrame × DataFrame × Option String) :=
  let keys := joinKeys.getD SAMPLING_JOIN_KEYS
  let p := filter_latest_scan dfScanRaw
  let dfScanLatest := filter_sold_part_equals_one p.1
  let dfRamiSample :=
    match sampleSize with
    | none => dfRamiRaw
    | some n =>
      if dfRamiRaw.rows.length ≤ n then dfRamiRaw
      else ⟨dfRamiRaw.cols, sampleGo 42 dfRamiRaw.rows n⟩
  match ensure_columns_exist dfScanLatest keys "scan file" with
  | .error e => .error e
  | .ok _ =>
    match ensure_columns_exist dfRamiSample keys "RAMI sample" with
    | .error e => .error e
    | .ok _ =>
      let strKey : Row → List String := fun r =>
        keys.map (fun c => valueToStr (getCell r c))
      let scanKeyList := dfScanLatest.rows.map strKey
      let flagged := dfRamiSample.rows.map (fun r =>
        r ++ [("found_in_scan", Value.bool (decide (strKey r ∈ scanKeyList)))])
      let missingOnly := flagged.filter (fun r =>
        decide (getCell r "found_in_scan" = Value.bool false))
      .ok (⟨dfRamiSample.cols ++ ["found_in_scan"], flagged⟩,
           ⟨dfRamiSample.cols ++ ["found_in_scan"], missingOnly⟩, p.2)

end SamplingChecker

/-!
Concrete tables used by the properties below.
-/

namespace TaxGapChecker

/-- A full key row over KEY_COLUMNS, singled out by its declared profit. -/
def keyRow (profit : Int) : Row :=
  [("block_lot", Value.str "1-2"), ("sale_day", Value.date 20250101),
   ("declared_profit", Value.num profit), ("sale_profit", Value.num (profit + 1)),
   ("sold_part", Value.num 1), ("build_year", Value.num 2000),
   ("building_mr", Value.num 80), ("rooms_number", Value.num 3)]

/-- Reference rows A, B, C of the set-difference example. -/
def exRowA : Row := keyRow 100

/-- Row B shares its key with one scan row. -/
def exRowB : Row := keyRow 200

/-- Row C has no scan counterpart. -/
def exRowC : Row := keyRow 300

/-- Reference table {A, B, C}. -/
def exRamiABC : DataFrame := ⟨KEY_COLUMNS, [exRowA, exRowB, exRowC]⟩

/-- Scan table {A, A, B}: A appears twice to exercise the existential
(many-to-many) match. -/
def exScanAB : DataFrame := ⟨KEY_COLUMNS, [exRowA, exRowA, exRowB]⟩

/-- Scan table of the batch example. -/
def exScanBatch : DataFrame := ⟨KEY_COLUMNS, [keyRow 100]⟩

/-- Context shared by the batch sources; the scan has no city column, so
the city dimension is skipped, as _filter_scan_by_context does. -/
def exCtx : RamiContext := ⟨"city", "תל אביב", none, none⟩

/-- Healthy source a.xls: one matched row and one missing row. -/
def exSrcA : RamiSource := ⟨"a.xls", .ok ⟨KEY_COLUMNS, [keyRow 100, keyRow 250]⟩, exCtx⟩

/-- Malformed source b.xls: reading raises. -/
def exSrcB : RamiSource := ⟨"b.xls", .error "Unsupported RAMI file type: .docx", exCtx⟩

/-- Healthy source c.xls: one missing row. -/
def exSrcC : RamiSource := ⟨"c.xls", .ok ⟨KEY_COLUMNS, [keyRow 350]⟩, exCtx⟩

/-- The batch of three sources with the middle one malformed. -/
def exBatch : List RamiSource := [exSrcA, exSrcB, exSrcC]

/-- Zero-row reference table carrying the expected columns. -/
def emptyRami : DataFrame := ⟨KEY_COLUMNS, []⟩

end TaxGapChecker

namespace DuplicatesChecker

/-- One row of the duplicate-detection example: the key tuple is pinned by
the block_lot value, the non-key column `note` keeps physical rows of one
group distinct. -/
def dupRow (bl : String) (i : Int) : Row :=
  [("block_lot", Value.str bl), ("sale_day", Value.date 20250101),
   ("declared_profit", Value.num 100), ("sold_part", Value.num 1),
   ("city", Value.str "חיפה"), ("build_year", Value.num 1990),
   ("building_mr", Value.num 70), ("rooms_number", Value.num 4),
   ("scan_date", Value.str "01.06.25"), ("note", Value.num i)]

/-- Table with key groups of sizes {1, 1, 2, 3}; every row is on the latest
scan date with sold_part = 1, so all seven survive the filter. -/
def exDupDf : DataFrame :=
  ⟨DUP_KEY_COLUMNS ++ ["note"],
   [dupRow "1-1" 0, dupRow "2-1" 0, dupRow "3-1" 1, dupRow "3-1" 2,
    dupRow "4-1" 1, dupRow "4-1" 2, dupRow "4-1" 3]⟩

/-- Zero-row scan table carrying the expected columns. -/
def emptyDupDf : DataFrame := ⟨DUP_KEY_COLUMNS, []⟩

end DuplicatesChecker

namespace GapChecker

/-- A scan table lacking the sale_day column. -/
def exNoDateDf : DataFrame :=
  ⟨["city", "block_lot"],
   [[("city", Value.str "חיפה"), ("block_lot", Value.str "1-2")]]⟩

/-- A city query over it. -/
def exTaxQuery : TaxQuery := ⟨20250101, 20251231, "city", [Value.str "חיפה"]⟩

/-- A full key row over DEFAULT_JOIN_KEYS, singled out by its declared
profit. -/
def gRow (profit : Int) : Row :=
  [("block_lot", Value.str "1-2"), ("sale_day", Value.date 20250101),
   ("declared_profit", Value.num profit), ("sold_part", Value.num 1),
   ("city", Value.str "חיפה"), ("build_year", Value.num 2000),
   ("building_mr", Value.num 80), ("rooms_number", Value.num 3)]

/-- Tax row A; its key matches two scan rows. -/
def gRowA : Row := gRow 100

/-- Tax row B; its key matches one scan row. -/
def gRowB : Row := gRow 200

/-- Tax row C; no scan row shares its key. -/
def gRowC : Row := gRow 300

end GapChecker

/-- A one-column table without sale_day, city or block_lot. -/
def exBareDf : DataFrame :=
  ⟨["declared_profit"], [[("declared_profit", Value.num 7)]]⟩

/-!
Helper lemmas about the list combinators the embedding uses.
-/

/-- Membership in the dedup worker: in the rest and not yet seen. -/
theorem mem_dedupFirstAux {α : Type} [DecidableEq α] (l : List α) (seen : List α)
    (a : α) : a ∈ dedupFirstAux seen l ↔ a ∈ l ∧ a ∉ seen := by
  induction l generalizing seen with
  | nil => simp [dedupFirstAux]
  | cons b bs ih =>
    by_cases hb : b ∈ seen
    · rw [dedupFirstAux, if_pos hb, ih]
      constructor
      · rintro ⟨h1, h2⟩
        exact ⟨List.mem_cons_of_mem _ h1, h2⟩
      · rintro ⟨h1, h2⟩
        rcases List.mem_cons.mp h1 with rfl | h1
        · exact absurd hb h2
        · exact ⟨h1, h2⟩
    · rw [dedupFirstAux, if_neg hb]
      by_cases hab : a = b
      · subst hab
        simp [hb]
      · rw [List.mem_cons]
        simp only [hab, false_or]
        rw [ih]
        simp [List.mem_cons, hab]

/-- Membership is invariant under first-occurrence deduplication. -/
theorem mem_dedupFirst {α : Type} [DecidableEq α] (l : List α) (a : α) :
    a ∈ dedupFirst l ↔ a ∈ l := by
  simp [dedupFirst, mem_dedupFirstAux]

/-- First-occurrence deduplication yields a duplicate-free list. -/
theorem nodup_dedupFirst {α : Type} [DecidableEq α] (l : List α) :
    (dedupFirst l).Nodup := by
  suffices h : ∀ seen : List α, (dedupFirstAux seen l).Nodup from h []
  induction l with
  | nil => intro seen; simp [dedupFirstAux]
  | cons b bs ih =>
    intro seen
    by_cases hb : b ∈ seen
    · rw [dedupFirstAux, if_pos hb]
      exact ih seen
    · rw [dedupFirstAux, if_neg hb]
      refine List.nodup_cons.mpr ⟨fun hmem => ?_, ih (b :: seen)⟩
      exact ((mem_dedupFirstAux _ _ _).mp hmem).2 (List.mem_cons_self _ _)

/-- Insertion keeps exactly the old elements plus the new one. -/
theorem perm_insertLe {α : Type} (le : α → α → Bool) (a : α) (l : List α) :
    List.Perm (insertLe le a l) (a :: l) := by
  induction l with
  | nil => exact List.Perm.refl _
  | cons b bs ih =>
    rw [insertLe]
    split
    · exact List.Perm.refl _
    · exact (List.Perm.cons b ih).trans (List.Perm.swap a b bs)

/-- Insertion sort permutes its input. -/
theorem perm_sortLe {α : Type} (le : α → α → Bool) (l : List α) :
    List.Perm (sortLe le l) l := by
  induction l with
  | nil => exact List.Perm.refl _
  | cons b bs ih =>
    exact (perm_insertLe le b (sortLe le bs)).trans (List.Perm.cons b ih)

/-- Membership is invariant under the sort. -/
theorem mem_sortLe {α : Type} (le : α → α → Bool) (a : α) (l : List α) :
    a ∈ sortLe le l ↔ a ∈ l := (perm_sortLe le l).mem_iff

/-- takeWhile is the identity when the predicate holds everywhere. -/
theorem takeWhile_all_true {α : Type} (p : α → Bool) (l : List α)
    (h : ∀ a ∈ l, p a = true) : l.takeWhile p = l := by
  induction l with
  | nil => rfl
  | cons a t ih =>
    simp [List.takeWhile_cons, h a (List.mem_cons_self a t),
      ih (fun b hb => h b (List.mem_cons_of_mem a hb))]

/-- A successful association-list lookup names a pair of the list. -/
theorem lookup_mem_pairs {l : List (String × String)} {a b : String}
    (h : List.lookup a l = some b) : (a, b) ∈ l := by
  induction l with
  | nil => simp [List.lookup] at h
  | cons p t ih =>
    obtain ⟨k, v⟩ := p
    simp only [List.lookup] at h
    split at h
    · next heq =>
      cases h
      have : a = k := eq_of_beq heq
      subst this
      exact List.mem_cons_self _ _
    · exact List.mem_cons_of_mem _ (ih h)

/-!
C4 — the key lists.
-/

/-- C4 counterexample: the merge key of tax_gap_checker (a cross-table
matching key of the reconciliation engine) is not the duplicate key minus
scan_date — it omits city and adds sale_profit. -/
theorem tax_key_differs_cex :
    TaxGapChecker.KEY_COLUMNS
      ≠ DuplicatesChecker.DUP_KEY_COLUMNS.filter (fun c => decide (c ≠ "scan_date"))
    ∧ "city" ∈ DuplicatesChecker.DUP_KEY_COLUMNS.filter (fun c => decide (c ≠ "scan_date"))
    ∧ "city" ∉ TaxGapChecker.KEY_COLUMNS
    ∧ "sale_profit" ∈ TaxGapChecker.KEY_COLUMNS
    ∧ "sale_profit" ∉ DuplicatesChecker.DUP_KEY_COLUMNS := by decide

/-- C4 (amended): gap_checker's DEFAULT_JOIN_KEYS is exactly the duplicate
key with scan_date removed and sold_part kept, and property_type belongs to
none of the three key lists; tax_gap_checker's KEY_COLUMNS deviates by
omitting city and adding sale_profit. -/
theorem join_key_lists_relation :
    GapChecker.DEFAULT_JOIN_KEYS
      = DuplicatesChecker.DUP_KEY_COLUMNS.filter (fun c => decide (c ≠ "scan_date"))
    ∧ "sold_part" ∈ GapChecker.DEFAULT_JOIN_KEYS
    ∧ "scan_date" ∉ GapChecker.DEFAULT_JOIN_KEYS
    ∧ "property_type" ∉ GapChecker.DEFAULT_JOIN_KEYS
    ∧ "property_type" ∉ DuplicatesChecker.DUP_KEY_COLUMNS
    ∧ "property_type" ∉ TaxGapChecker.KEY_COLUMNS
    ∧ "city" ∉ TaxGapChecker.KEY_COLUMNS
    ∧ "sale_profit" ∈ TaxGapChecker.KEY_COLUMNS := by decide

/-!
C3 — order of the inferred date bounds.
-/

/-- C3 counterexample: the A2–A4 cell parser of tax_gap_checker assigns the
bounds in order of appearance, so the reversed pair "28.05.25", "27.01.25"
yields date_from = 2025-05-28 after date_to = 2025-01-27, violating
date_from ≤ date_to. -/
theorem cells_dates_not_swapped_cex :
    TaxGapChecker.parseDatesFromCells ["28.05.25", "27.01.25"]
      = (some 20250528, some 20250127)
    ∧ ¬ (20250528 : Nat) ≤ 20250127 := by decide

/-- C3 (amended): the filename date parser of rami_parser does swap — when
both bounds parse, date_from ≤ date_to. -/
theorem filename_dates_ordered (ms : List String) (d1 d2 : Nat)
    (h : RamiParser.parseDatesFromFilename ms = some (d1, d2)) : d1 ≤ d2 := by
  cases ms with
  | nil => simp [RamiParser.parseDatesFromFilename] at h
  | cons a t =>
    cases t with
    | nil => simp [RamiParser.parseDatesFromFilename] at h
    | cons b rest =>
      simp only [RamiParser.parseDatesFromFilename] at h
      cases ha : parseDateDMY a <;> rw [ha] at h
      · simp at h
      · cases hb : parseDateDMY b <;> rw [hb] at h
        · simp at h
        · simp only [Option.some.injEq, Prod.mk.injEq] at h
          obtain ⟨h1, h2⟩ := h
          subst h1
          subst h2
          exact min_le_max

/-- C3 witness: the spec's own reversed pair lands swapped and ordered. -/
theorem filename_dates_ordered_witness :
    RamiParser.parseDatesFromFilename ["28.05.25", "27.01.25"]
      = some (20250127, 20250528)
    ∧ (20250127 : Nat) ≤ 20250528 :=
  ⟨by decide, filename_dates_ordered ["28.05.25", "27.01.25"] 20250127 20250528 (by decide)⟩

/-!
C8 — area-code normalization.
-/

/-- C8 counterexample: on parcel id "0-1" the two implementations disagree —
gap_checker returns "0" (its `stripped or "0"` fallback), tax_gap_checker
returns "" — so they do not compute the same code for every parcel id. -/
theorem goch_implementations_differ_cex :
    GapChecker.extract_goch_from_block_lot "0-1" = "0"
    ∧ TaxGapChecker.extractBlockId "0-1" = ""
    ∧ GapChecker.extract_goch_from_block_lot "0-1"
        ≠ TaxGapChecker.extractBlockId "0-1" := by decide

/-- C8 (amended): whenever the part before the first '-' is a non-empty run
of digits with at least one non-zero digit — every realistic parcel id —
the two implementations agree (both give the digits with leading zeros
stripped). -/
theorem goch_blockid_agree (v : String)
    (hne : v.toList.takeWhile (fun c => decide (c ≠ '-')) ≠ [])
    (hdig : ∀ c ∈ v.toList.takeWhile (fun c => decide (c ≠ '-')), c.isDigit)
    (hnz : ∃ c ∈ v.toList.takeWhile (fun c => decide (c ≠ '-')), c ≠ '0') :
    GapChecker.extract_goch_from_block_lot v = TaxGapChecker.extractBlockId v := by
  have hfilter : (v.toList.takeWhile (fun c => decide (c ≠ '-'))).filter Char.isDigit
      = v.toList.takeWhile (fun c => decide (c ≠ '-')) :=
    List.filter_eq_self.mpr hdig
  have hrun : TaxGapChecker.firstDigitRun (v.toList.takeWhile (fun c => decide (c ≠ '-')))
      = v.toList.takeWhile (fun c => decide (c ≠ '-')) := by
    cases hq : v.toList.takeWhile (fun c => decide (c ≠ '-')) with
    | nil => rfl
    | cons c cs =>
      have hc : c.isDigit := hdig c (by rw [hq]; exact List.mem_cons_self c cs)
      have hcs : cs.takeWhile Char.isDigit = cs :=
        takeWhile_all_true _ _ (fun b hb => hdig b (by rw [hq]; exact List.mem_cons_of_mem c hb))
      simp [TaxGapChecker.firstDigitRun, hc, hcs]
  have hstrip : (v.toList.takeWhile (fun c => decide (c ≠ '-'))).dropWhile
      (fun c => decide (c = '0')) ≠ [] := by
    intro hnil
    obtain ⟨c, hc, hcne⟩ := hnz
    have := List.dropWhile_eq_nil_iff.mp hnil c hc
    simp at this
    exact hcne this
  unfold GapChecker.extract_goch_from_block_lot TaxGapChecker.extractBlockId
  simp only [hfilter, hrun, if_neg hne, if_neg hstrip]

/-- C8 witness: both spec examples normalize to "28048" under both
implementations, and the agreement theorem applies to them. -/
theorem goch_blockid_agree_witness :
    GapChecker.extract_goch_from_block_lot "028048-0058-010-00" = "28048"
    ∧ TaxGapChecker.extractBlockId "028048-0058-010-00" = "28048"
    ∧ GapChecker.extract_goch_from_block_lot "28048-99-1-00"
        = TaxGapChecker.extractBlockId "28048-99-1-00"
    ∧ GapChecker.extract_goch_from_block_lot "28048-99-1-00" = "28048" :=
  ⟨by decide, by decide,
   goch_blockid_agree "28048-99-1-00" (by decide) (by decide) (by decide),
   by decide⟩

/-!
C10 — determinism of the sampling check.
-/

/-- C10: run_sampling_check consults no ambient randomness — its only
random draw is seeded with the constant 42 — so two runs on equal inputs
under different environment entropy produce identical outputs (sampled
rows, found_in_scan flags and latest-scan value alike). -/
theorem sampling_check_deterministic (e1 e2 : Nat) (scan rami : DataFrame)
    (n : Option Nat) (ks : Option (List String)) :
    SamplingChecker.run_sampling_check e1 scan rami n ks
      = SamplingChecker.run_sampling_check e2 scan rami n ks := rfl

/-!
C1 — the set-difference semantics of reconciliation.
-/

/-- C1 counterexample: in gap_checker's find_missing_transactions the scan
keys are not deduplicated, so on reference {A,B,C} vs scan {A,A,B} the left
merge holds four rows ([T,T,T,F]) and the index-aligned found_in_scan
assignment hands tax rows 0-2 the flags [T,T,T]: row C — whose key matches
no scan row — is flagged found and the engine reports 0 missing instead of
the claimed exactly-{C} with missing_count = 1, precisely in the
duplicate-scan-row case the claim singles out. -/
theorem gap_dup_scan_misflag_cex :
    GapChecker.missing_transactions GapChecker.DEFAULT_JOIN_KEYS
      [GapChecker.gRowA, GapChecker.gRowB, GapChecker.gRowC]
      [GapChecker.gRowA, GapChecker.gRowA, GapChecker.gRowB] = []
    ∧ (GapChecker.missing_transactions GapChecker.DEFAULT_JOIN_KEYS
        [GapChecker.gRowA, GapChecker.gRowB, GapChecker.gRowC]
        [GapChecker.gRowA, GapChecker.gRowA, GapChecker.gRowB]).length = 0
    ∧ (∀ s ∈ [GapChecker.gRowA, GapChecker.gRowA, GapChecker.gRowB],
        GapChecker.keyOfJoin GapChecker.DEFAULT_JOIN_KEYS s
          ≠ GapChecker.keyOfJoin GapChecker.DEFAULT_JOIN_KEYS GapChecker.gRowC)
    ∧ GapChecker.found_mask GapChecker.DEFAULT_JOIN_KEYS
        [GapChecker.gRowA, GapChecker.gRowB, GapChecker.gRowC]
        [GapChecker.gRowA, GapChecker.gRowA, GapChecker.gRowB]
        = [true, true, true]
    ∧ GapChecker.mergedFlags GapChecker.DEFAULT_JOIN_KEYS
        [GapChecker.gRowA, GapChecker.gRowB, GapChecker.gRowC]
        [GapChecker.gRowA, GapChecker.gRowA, GapChecker.gRowB]
        = [true, true, true, false] := by decide

/-- C1 (amended): in tax_gap_checker's _gap_for_one_rami — where the scan
keys ARE deduplicated before the indicator merge — a reference row is
reported missing iff no filtered scan row shares its key tuple (presence is
existential: duplicate scan rows satisfy any number of reference rows), and
on reference {A,B,C} vs scan {A,A,B} exactly C is missing, with
missing_count = 1.  gap_checker's find_missing_transactions does not satisfy
the iff under duplicate scan keys (see the counterexample): the
non-deduplicated merge plus index-aligned flag assignment shifts flags onto
the wrong reference rows. -/
theorem missing_row_iff_key_absent :
    (∀ ramiF scanF : DataFrame, ∀ r : Row,
      r ∈ (TaxGapChecker.missingDf ramiF scanF).rows ↔
        (r ∈ ramiF.rows ∧ ∀ s ∈ scanF.rows, TaxGapChecker.keyOf s ≠ TaxGapChecker.keyOf r))
    ∧ (TaxGapChecker.missingDf TaxGapChecker.exRamiABC TaxGapChecker.exScanAB).rows
        = [TaxGapChecker.exRowC]
    ∧ (TaxGapChecker.missingDf TaxGapChecker.exRamiABC TaxGapChecker.exScanAB).rows.length
        = 1 := by
  refine ⟨?_, by decide, by decide⟩
  intro ramiF scanF r
  simp only [TaxGapChecker.missingDf, List.mem_filter, Bool.not_eq_true',
    decide_eq_false_iff_not, TaxGapChecker.scanKeys, mem_dedupFirst, List.mem_map]
  constructor
  · rintro ⟨hr, hnot⟩
    exact ⟨hr, fun s hs heq => hnot ⟨s, hs, heq⟩⟩
  · rintro ⟨hr, hall⟩
    exact ⟨hr, fun ⟨s, hs, heq⟩ => hall s hs heq⟩

/-!
C9 — schema normalization and canonical-name uniqueness.
-/

/-- C9 counterexample: tax_gap_checker's _normalize_columns renames the
Hebrew alias even when the canonical column is already present, so a table
with columns ["גוש חלקה", "block_lot"] ends with two "block_lot" columns —
canonical names are not unique after that normalization. -/
theorem tax_normalize_duplicates_cex :
    TaxGapChecker.normalize_columns ["גוש חלקה", "block_lot"]
      = ["block_lot", "block_lot"]
    ∧ ¬ (TaxGapChecker.normalize_columns ["גוש חלקה", "block_lot"]).Nodup
    ∧ (["גוש חלקה", "block_lot"] : List String).Nodup := by decide

/-- The rename-map values of file_loader are pairwise distinct: equal
targets force equal Hebrew sources. -/
theorem rami_map_snd_inj :
    ∀ p ∈ FileLoader.RAMI_COLUMN_MAP, ∀ q ∈ FileLoader.RAMI_COLUMN_MAP,
      p.2 = q.2 → p.1 = q.1 := by decide

/-- No Hebrew key of the file_loader map is also a canonical target. -/
theorem rami_map_keys_vals_disjoint :
    ∀ p ∈ FileLoader.RAMI_COLUMN_MAP, ∀ q ∈ FileLoader.RAMI_COLUMN_MAP,
      p.1 ≠ q.2 := by decide

/-- A pair of the guarded rename map comes from the static map, with its
Hebrew source present and its canonical target absent. -/
theorem mem_renameMapRami {cols : List String} {p : String × String}
    (h : p ∈ FileLoader.renameMapRami cols) :
    p ∈ FileLoader.RAMI_COLUMN_MAP ∧ p.1 ∈ cols ∧ p.2 ∉ cols := by
  have h' := List.mem_filter.mp h
  refine ⟨h'.1, ?_, ?_⟩
  · have := h'.2
    simp only [Bool.and_eq_true, decide_eq_true_eq, Bool.not_eq_true',
      decide_eq_false_iff_not] at this
    exact this.1
  · have := h'.2
    simp only [Bool.and_eq_true, decide_eq_true_eq, Bool.not_eq_true',
      decide_eq_false_iff_not] at this
    exact this.2

/-- C9 (amended): file_loader's guarded _normalize_rami_columns keeps column
names unique (no alias ever lands on a name already taken), never touches a
column that already bears a canonical name, and in particular leaves a table
holding both "block_lot" and its Hebrew alias completely unchanged — the
canonical column's values survive; tax_gap_checker's _normalize_columns is
the variant without the guard (see the counterexample). -/
theorem rami_normalize_preserves_unique :
    (∀ cols : List String, cols.Nodup → (FileLoader.normalize_rami_columns cols).Nodup)
    ∧ (∀ cols : List String, ∀ c ∈ FileLoader.RAMI_COLUMN_MAP.map Prod.snd,
        FileLoader.applyRename (FileLoader.renameMapRami cols) c = c)
    ∧ FileLoader.normalize_rami_columns ["block_lot", "גוש חלקה"]
        = ["block_lot", "גוש חלקה"] := by
  refine ⟨?_, ?_, by decide⟩
  · intro cols hnd
    apply List.Nodup.map_on ?_ hnd
    intro x hx y hy hxy
    unfold FileLoader.applyRename at hxy
    cases hlx : List.lookup x (FileLoader.renameMapRami cols) <;>
      cases hly : List.lookup y (FileLoader.renameMapRami cols) <;>
        rw [hlx, hly] at hxy <;> simp only [Option.getD_none, Option.getD_some] at hxy
    · exact hxy
    · next e =>
      obtain ⟨_, _, hout⟩ := mem_renameMapRami (lookup_mem_pairs hly)
      exact absurd (hxy ▸ hx) hout
    · next e =>
      obtain ⟨_, _, hout⟩ := mem_renameMapRami (lookup_mem_pairs hlx)
      exact absurd (hxy ▸ hy) hout
    · next e1 e2 =>
      obtain ⟨hm1, _, _⟩ := mem_renameMapRami (lookup_mem_pairs hlx)
      obtain ⟨hm2, _, _⟩ := mem_renameMapRami (lookup_mem_pairs hly)
      exact rami_map_snd_inj (x, e1) hm1 (y, e2) hm2 (by simpa using hxy)
  · intro cols c hc
    unfold FileLoader.applyRename
    cases hl : List.lookup c (FileLoader.renameMapRami cols)
    · rfl
    · next e =>
      exfalso
      obtain ⟨hm, _, _⟩ := mem_renameMapRami (lookup_mem_pairs hl)
      obtain ⟨q, hq, hq2⟩ := List.mem_map.mp hc
      exact rami_map_keys_vals_disjoint (c, e) hm q hq hq2.symm

/-!
C5 — totality of context application.
-/

/-- C5 counterexample: gap_checker's filter_scan_by_tax_query raises (an
error value here) on a table lacking the sale-date column instead of
returning it unfiltered, so applying a context is not a total never-failing
function in that engine. -/
theorem gap_filter_raises_on_missing_column_cex :
    GapChecker.filter_scan_by_tax_query GapChecker.exNoDateDf GapChecker.exTaxQuery
      = Except.error "Scan file is missing date column 'sale_day'" := rfl

/-- C5 (amended): the tax_gap_checker filters are total functions and skip a
dimension whose column is missing — a table without sale_day passes the date
filter unchanged, one without city passes the city dimension unchanged, one
without block_lot passes the block dimension unchanged; gap_checker's
filter_scan_by_tax_query instead raises in those cases. -/
theorem context_filters_total_on_missing (df : DataFrame) (fv : String)
    (dfrom dto : Option Nat) (rctx : Option DataFrame)
    (hd : "sale_day" ∉ df.cols) (hc : "city" ∉ df.cols)
    (hb : "block_lot" ∉ df.cols) :
    TaxGapChecker.filter_rami_by_dates df dfrom dto = df
    ∧ TaxGapChecker.filter_scan_by_context df "city" fv dfrom dto rctx = df
    ∧ TaxGapChecker.filter_scan_by_context df "block" fv dfrom dto rctx = df := by
  have h1 : TaxGapChecker.filter_rami_by_dates df dfrom dto = df := by
    cases dfrom <;> cases dto <;> simp [TaxGapChecker.filter_rami_by_dates, hd]
  refine ⟨h1, ?_, ?_⟩
  · cases rctx with
    | none => simpa [TaxGapChecker.filter_scan_by_context] using h1
    | some rc =>
      simp [TaxGapChecker.filter_scan_by_context, h1, hc, hb]
  · cases rctx with
    | none => simpa [TaxGapChecker.filter_scan_by_context] using h1
    | some rc =>
      simp [TaxGapChecker.filter_scan_by_context, h1, hc, hb]

/-- C5 witness: a frame with only declared_profit flows through both filter
dimensions unchanged. -/
theorem context_filters_total_witness :
    TaxGapChecker.filter_rami_by_dates exBareDf none none = exBareDf
    ∧ TaxGapChecker.filter_scan_by_context exBareDf "city" "x" none none none = exBareDf
    ∧ TaxGapChecker.filter_scan_by_context exBareDf "block" "x" none none none = exBareDf :=
  context_filters_total_on_missing exBareDf "x" none none none
    (by decide) (by decide) (by decide)

/-!
C7 — zero-row inputs.
-/

/-- C7 counterexample: run_duplicates_check on a zero-row table with all the
expected columns raises, because `scan_parsed.isna().all()` is vacuously
true on zero rows — not the empty result the claim promises. -/
theorem duplicates_empty_table_error_cex :
    DuplicatesChecker.run_duplicates_check DuplicatesChecker.emptyDupDf
      = Except.error "Could not parse any valid dates in 'scan_date' column." := rfl

/-- The date filter is the identity on a zero-row frame. -/
theorem filter_rami_empty (cols : List String) (a b : Option Nat) :
    TaxGapChecker.filter_rami_by_dates ⟨cols, []⟩ a b = ⟨cols, []⟩ := by
  cases a <;> cases b <;> simp [TaxGapChecker.filter_rami_by_dates]

/-- The scan context filter never changes the column list. -/
theorem filter_scan_cols (df : DataFrame) (ft fv : String) (a b : Option Nat)
    (rc : Option DataFrame) :
    (TaxGapChecker.filter_scan_by_context df ft fv a b rc).cols = df.cols := by
  have hd : (TaxGapChecker.filter_rami_by_dates df a b).cols = df.cols := by
    cases a <;> cases b <;> simp [TaxGapChecker.filter_rami_by_dates]
    split <;> rfl
  unfold TaxGapChecker.filter_scan_by_context
  cases rc with
  | none => exact hd
  | some rctx =>
    dsimp only
    split_ifs <;> simp [hd]

/-- A frame holding every key column passes the required-columns check. -/
theorem ensure_ok_of_cols {df : DataFrame} {lbl : String}
    (h : ∀ c ∈ TaxGapChecker.KEY_COLUMNS, c ∈ df.cols) :
    TaxGapChecker.ensure_required_columns df lbl = Except.ok () := by
  unfold TaxGapChecker.ensure_required_columns
  have hnil : TaxGapChecker.KEY_COLUMNS.filter (fun c => !decide (c ∈ df.cols)) = [] := by
    rw [List.filter_eq_nil_iff]
    intro c hc
    simp [h c hc]
  simp [hnil]

/-- C7 (amended): reconciliation of a zero-row reference table (expected
columns present) against any scan table holding the key columns succeeds
with empty results and zero-valued reference statistics; duplicate
detection, by contrast, raises on a zero-row table (see the
counterexample). -/
theorem reconciliation_zero_row_ok (scan : DataFrame) (name : String)
    (ctx : TaxGapChecker.RamiContext)
    (h : ∀ c ∈ TaxGapChecker.KEY_COLUMNS, c ∈ scan.cols) :
    TaxGapChecker.gapForOneRami scan ⟨name, Except.ok TaxGapChecker.emptyRami, ctx⟩
      = ({ rami_filename := name, status := "ok",
           filter_type := some ctx.filterType, filter_value := some ctx.filterValue,
           date_from := ctx.dateFrom, date_to := ctx.dateTo,
           rami_rows_total := 0, rami_rows_filtered := 0,
           scan_rows_filtered := (TaxGapChecker.filter_scan_by_context scan
             ctx.filterType ctx.filterValue ctx.dateFrom ctx.dateTo
             (some TaxGapChecker.emptyRami)).rows.length,
           missing_count := 0, error_message := "" },
         ⟨TaxGapChecker.KEY_COLUMNS, []⟩) := by
  have hrami : TaxGapChecker.filter_rami_by_dates TaxGapChecker.emptyRami
      ctx.dateFrom ctx.dateTo = TaxGapChecker.emptyRami :=
    filter_rami_empty TaxGapChecker.KEY_COLUMNS ctx.dateFrom ctx.dateTo
  have e1 : TaxGapChecker.ensure_required_columns
      (if 0 < (TaxGapChecker.filter_scan_by_context scan ctx.filterType
          ctx.filterValue ctx.dateFrom ctx.dateTo
          (some TaxGapChecker.emptyRami)).rows.length
       then TaxGapChecker.filter_scan_by_context scan ctx.filterType
          ctx.filterValue ctx.dateFrom ctx.dateTo (some TaxGapChecker.emptyRami)
       else scan) "Scan file (after filtering)" = Except.ok () := by
    apply ensure_ok_of_cols
    intro c hc
    split
    · rw [filter_scan_cols]
      exact h c hc
    · exact h c hc
  have e2 : TaxGapChecker.ensure_required_columns
      (if 0 < TaxGapChecker.emptyRami.rows.length then TaxGapChecker.emptyRami
       else TaxGapChecker.emptyRami) "RAMI file (after filtering)"
      = Except.ok () := rfl
  unfold TaxGapChecker.gapForOneRami TaxGapChecker.gapPipeline
  simp only [hrami, e1, e2]
  simp [TaxGapChecker.missingDf, TaxGapChecker.emptyRami]

/-- C7 witness: the zero-row reference against a one-row scan. -/
theorem reconciliation_zero_row_ok_witness :
    TaxGapChecker.gapForOneRami TaxGapChecker.exScanBatch
      ⟨"r.xls", Except.ok TaxGapChecker.emptyRami, TaxGapChecker.exCtx⟩
      = ({ rami_filename := "r.xls", status := "ok",
           filter_type := some TaxGapChecker.exCtx.filterType,
           filter_value := some TaxGapChecker.exCtx.filterValue,
           date_from := TaxGapChecker.exCtx.dateFrom,
           date_to := TaxGapChecker.exCtx.dateTo,
           rami_rows_total := 0, rami_rows_filtered := 0,
           scan_rows_filtered := (TaxGapChecker.filter_scan_by_context
             TaxGapChecker.exScanBatch TaxGapChecker.exCtx.filterType
             TaxGapChecker.exCtx.filterValue TaxGapChecker.exCtx.dateFrom
             TaxGapChecker.exCtx.dateTo (some TaxGapChecker.emptyRami)).rows.length,
           missing_count := 0, error_message := "" },
         ⟨TaxGapChecker.KEY_COLUMNS, []⟩) :=
  reconciliation_zero_row_ok TaxGapChecker.exScanBatch "r.xls" TaxGapChecker.exCtx
    (by decide)

/-!
C2 — batch error isolation.
-/

/-- C2: an exception in one source's pipeline yields a per-source entry with
status "error" carrying the message and all-zero counts, every source of a
batch gets exactly one entry (a failure stops nothing), and every row of the
aggregated missing set comes from a source whose status is "ok"; on the
concrete 3-source batch with the middle source malformed, the statuses are
[ok, error, ok] and the aggregate holds exactly the rows of the two healthy
sources. -/
theorem batch_error_isolation :
    (∀ (scan : DataFrame) (sources : List TaxGapChecker.RamiSource),
      (TaxGapChecker.run_tax_gap_check scan sources).allFilesStats.length
        = sources.length)
    ∧ (∀ (scan : DataFrame) (src : TaxGapChecker.RamiSource) (e : String),
        TaxGapChecker.gapPipeline scan src = Except.error e →
          TaxGapChecker.gapForOneRami scan src
            = (TaxGapChecker.errorStats src.name e, ⟨[], []⟩))
    ∧ (∀ (scan : DataFrame) (sources : List TaxGapChecker.RamiSource),
        ∀ r ∈ (TaxGapChecker.run_tax_gap_check scan sources).missingAll,
          ∃ src ∈ sources,
            (TaxGapChecker.gapForOneRami scan src).1.status = "ok"
            ∧ r ∈ TaxGapChecker.tagSource
                (TaxGapChecker.gapForOneRami scan src).1.rami_filename
                (TaxGapChecker.gapForOneRami scan src).2)
    ∧ (TaxGapChecker.run_tax_gap_check TaxGapChecker.exScanBatch
        TaxGapChecker.exBatch).allFilesStats.map (fun f => f.status)
        = ["ok", "error", "ok"]
    ∧ (TaxGapChecker.run_tax_gap_check TaxGapChecker.exScanBatch
        TaxGapChecker.exBatch).allFilesStats.get? 1
        = some (TaxGapChecker.errorStats "b.xls" "Unsupported RAMI file type: .docx")
    ∧ (TaxGapChecker.run_tax_gap_check TaxGapChecker.exScanBatch
        TaxGapChecker.exBatch).fileCountSuccess = 2
    ∧ (TaxGapChecker.run_tax_gap_check TaxGapChecker.exScanBatch
        TaxGapChecker.exBatch).fileCountError = 1
    ∧ (TaxGapChecker.run_tax_gap_check TaxGapChecker.exScanBatch
        TaxGapChecker.exBatch).missingAll
        = [TaxGapChecker.keyRow 250 ++ [("rami_source", Value.str "a.xls")],
           TaxGapChecker.keyRow 350 ++ [("rami_source", Value.str "c.xls")]] := by
  refine ⟨?_, ?_, ?_, by decide, by decide, by decide, by decide, by decide⟩
  · intro scan sources
    simp [TaxGapChecker.run_tax_gap_check]
  · intro scan src e hp
    simp [TaxGapChecker.gapForOneRami, hp]
  · intro scan sources r hr
    simp only [TaxGapChecker.run_tax_gap_check, List.mem_flatten,
      List.mem_filterMap, List.mem_map] at hr
    obtain ⟨l, ⟨p, ⟨src, hsrc, rfl⟩, hp⟩, hrl⟩ := hr
    split at hp
    · next hcond =>
      cases hp
      exact ⟨src, hsrc, hcond.1, hrl⟩
    · simp at hp

/-!
C6 — duplicate-detection summary and rows modes.
-/

/-- C6 counterexample: on the {1,1,2,3} table the summary's counts come out
[2, 3] — the group whose key sorts first comes first — not [3, 2] as the
count-descending ordering of the claim requires. -/
theorem summary_order_not_by_count_cex :
    (DuplicatesChecker.dupGroups DuplicatesChecker.exDupDf.rows).map (fun p => p.2)
      = [2, 3]
    ∧ (DuplicatesChecker.dupGroups DuplicatesChecker.exDupDf.rows).map (fun p => p.2)
      ≠ [3, 2] := by decide

/-- C6 (amended): the summary has exactly one entry per composite-key group
with more than one row, carrying that group's count, with pairwise-distinct
keys; its order is the grouping's ascending key order, not count-descending;
the {1,1,2,3} table yields exactly two summary groups and five rows in rows
mode (counts [2, 3] in key order). -/
theorem summary_groups_characterization :
    (∀ (rows : List Row) (k : List Value) (c : Nat),
      (k, c) ∈ DuplicatesChecker.dupGroups rows ↔
        (k ∈ rows.map DuplicatesChecker.keyOfDup
          ∧ c = DuplicatesChecker.countKey rows k ∧ 1 < c))
    ∧ (∀ rows : List Row, ((DuplicatesChecker.dupGroups rows).map Prod.fst).Nodup)
    ∧ (DuplicatesChecker.run_duplicates_check DuplicatesChecker.exDupDf).toOption.map
        (fun p => (p.1.duplicate_groups, p.1.duplicate_rows)) = some (2, 5)
    ∧ (DuplicatesChecker.dupGroups DuplicatesChecker.exDupDf.rows).map (fun p => p.2)
        = [2, 3] := by
  refine ⟨?_, ?_, by decide, by decide⟩
  · intro rows k c
    simp only [DuplicatesChecker.dupGroups, List.mem_filter, List.mem_map,
      mem_sortLe, mem_dedupFirst, decide_eq_true_eq, Prod.mk.injEq]
    constructor
    · rintro ⟨⟨k', hk', rfl, rfl⟩, hgt⟩
      exact ⟨hk', rfl, hgt⟩
    · rintro ⟨hk, rfl, hgt⟩
      exact ⟨⟨k, hk, rfl, rfl⟩, hgt⟩
  · intro rows
    have h1 : (DuplicatesChecker.dupGroups rows).map Prod.fst
        = (sortLe DuplicatesChecker.keyLe
            (dedupFirst (rows.map DuplicatesChecker.keyOfDup))).filter
            (fun k => decide (1 < DuplicatesChecker.countKey rows k)) := by
      simp only [DuplicatesChecker.dupGroups, List.filter_map, List.map_map,
        Function.comp_def]
      exact List.map_id' _
    rw [h1]
    exact List.Nodup.filter _
      ((perm_sortLe _ _).nodup_iff.mpr (nodup_dedupFirst _))
